import Mathlib

/-!
# Verification of the GhostRef / CitationLint citation pipeline

A shallow embedding of the citation-verification pipeline of this repository.
Two front-end variants exist in the sources:

* GhostRef v0.0.15 (the file embedded in `src/huggingface/README.md`): segmenter
  (`findReferencesSection`), splitter (`parseCitations`), field extractors
  (`extractDOI`, `extractTitle`, `extractBiblio`), similarity scorer
  (`calculateSimilarity`) and the verification orchestrator
  (`verifyDOI`, `searchCrossRef`, `searchCrossRefBiblio`, `verifyCitations`,
  and the DOI-pass filter step of `startVerification`).
* CitationLint v0.0.5 (`src/app.js`): the split-based splitter variant, embedded
  here as `parseCitationsV5`.

Text is modelled as `List Char` (`Str`). JavaScript regular expressions are
embedded through a small continuation-passing matcher library with the same
leftmost-match, greedy-with-backtracking semantics; each JS regex of the source
is transcribed as an explicit pattern built out of these combinators.  Network
effects are modelled by an explicit lookup oracle (`Lookup`): each `fetch` call
either throws (`thrown`, covering network and JSON-parse exceptions, which the
source folds into the same `catch`) or returns an HTTP status together with the
parsed body.
-/

/-- Text, as JavaScript strings: a list of characters. -/
abbrev Str := List Char

/-- Shorthand for turning a string literal into `Str`. -/
def str (s : String) : Str := s.toList

/-- JS `\s` (whitespace) class: the characters relevant to the sources
(ASCII whitespace plus no-break space and BOM). -/
def isWsC (c : Char) : Bool :=
  c = ' ' ∨ c = '\t' ∨ c = '\n' ∨ c = '\r' ∨ c = '\x0b' ∨ c = '\x0c' ∨
  c = ' ' ∨ c = '﻿'

/-- JS `[A-Z]` class. -/
def isUpperC (c : Char) : Bool := 'A' ≤ c ∧ c ≤ 'Z'

/-- JS `[a-z]` class. -/
def isLowerC (c : Char) : Bool := 'a' ≤ c ∧ c ≤ 'z'

/-- JS `[A-Za-z]` class. -/
def isAlphaC (c : Char) : Bool := isUpperC c ∨ isLowerC c

/-- JS `\w` (word character) class: `[A-Za-z0-9_]`. -/
def isWordC (c : Char) : Bool := isAlphaC c ∨ c.isDigit ∨ c = '_'

/-- The apostrophe character (`'`). -/
def apos : Char := Char.ofNat 39

/-- The double-quote character (`"`). -/
def dquote : Char := Char.ofNat 34

/-- JS `String.prototype.toLowerCase`, on the ASCII letters the pipeline uses. -/
def lowerStr (t : Str) : Str := t.map Char.toLower

/-- JS `String.prototype.trim`: strip leading and trailing whitespace. -/
def trimWs (t : Str) : Str :=
  ((t.dropWhile isWsC).reverse.dropWhile isWsC).reverse

/-- Auxiliary state-passing loop for `collapseWs` (`prevWs` records whether the
previous character was part of a whitespace run already emitted as a space). -/
def collapseWsAux : Bool → Str → Str
  | _, [] => []
  | prevWs, c :: rest =>
    if isWsC c then
      if prevWs then collapseWsAux true rest
      else ' ' :: collapseWsAux true rest
    else c :: collapseWsAux false rest

/-- JS `text.replace(/\s+/g, ' ')`: each maximal whitespace run becomes a
single space. -/
def collapseWs (t : Str) : Str := collapseWsAux false t

/-!
## Matcher combinators

`M α` is a backtracking matcher in continuation-passing style: it consumes a
prefix of the input and calls the continuation on the rest; alternatives and
greedy quantifiers try their preferred branch first and fall back through the
`Option` failure channel, which reproduces the JS regex backtracking order.
-/

/-- A continuation-passing backtracking matcher producing a result of type `α`. -/
def M (α : Type) := Str → (Str → Option α) → Option α

/-- Sequencing of matchers. -/
def mseq {α : Type} (p q : M α) : M α := fun s k => p s fun s1 => q s1 k

/-- Alternation (first alternative preferred, as in JS regexes). -/
def malt {α : Type} (p q : M α) : M α := fun s k => (p s k) <|> (q s k)

/-- Match one character equal to `c`. -/
def mch {α : Type} (c : Char) : M α := fun s k =>
  match s with
  | a :: r => if a = c then k r else none
  | [] => none

/-- Match one character equal to `c` up to case (for `/i` patterns). -/
def mchCI {α : Type} (c : Char) : M α := fun s k =>
  match s with
  | a :: r => if a.toLower = c.toLower then k r else none
  | [] => none

/-- Match one character of the class `f`. -/
def mcls {α : Type} (f : Char → Bool) : M α := fun s k =>
  match s with
  | a :: r => if f a then k r else none
  | [] => none

/-- The empty matcher. -/
def mnil {α : Type} : M α := fun s k => k s

/-- Match the literal character sequence `cs`. -/
def mlit {α : Type} (cs : Str) : M α := cs.foldr (fun c acc => mseq (mch c) acc) mnil

/-- Match the literal character sequence `cs` case-insensitively. -/
def mlitCI {α : Type} (cs : Str) : M α := cs.foldr (fun c acc => mseq (mchCI c) acc) mnil

/-- Greedy option (`p?`): try with `p` first, then without. -/
def mopt {α : Type} (p : M α) : M α := fun s k => (p s k) <|> k s

/-- Number of leading characters of `s` in the class `f`. -/
def countRun (f : Char → Bool) : Str → Nat
  | [] => 0
  | c :: r => if f c then countRun f r + 1 else 0

/-- Try the continuation after dropping `j, j-1, ..., lo` characters
(the backtracking descent of a greedy repetition). -/
def tryFromDown {α : Type} (k : Str → Option α) (s : Str) (lo : Nat) : Nat → Option α
  | 0 => if lo = 0 then k s else none
  | j + 1 => if j + 1 < lo then none else (k (s.drop (j + 1))) <|> tryFromDown k s lo j

/-- Greedy character-class repetition `f{lo,hi}` (`hi = none` means unbounded),
with full backtracking. -/
def mrep {α : Type} (f : Char → Bool) (lo : Nat) (hi : Option Nat) : M α := fun s k =>
  let mx := match hi with
    | some h => min h (countRun f s)
    | none => countRun f s
  if mx < lo then none else tryFromDown k s lo mx

/-- Lazy character-class star `f*?`: fewest repetitions first. -/
def mrepLazyGo {α : Type} (f : Char → Bool) (k : Str → Option α) : Str → Option α
  | [] => k []
  | c :: r => (k (c :: r)) <|> (if f c then mrepLazyGo f k r else none)

/-- Lazy star on a character class (JS `.*?`-style). -/
def mrepLazy {α : Type} (f : Char → Bool) : M α := fun s k => mrepLazyGo f k s

/-- Fuelled greedy star over a submatcher; every iteration must consume input
(the JS engine likewise stops a quantified group that matches emptily). -/
def mstarGo {α : Type} (p : M α) : Nat → M α
  | 0 => fun s k => k s
  | n + 1 => fun s k =>
    (p s (fun s1 => if s1.length < s.length then mstarGo p n s1 k else none)) <|> k s

/-- Greedy star over a submatcher (`(?: ... )*`). -/
def mstar {α : Type} (p : M α) : M α := fun s k => mstarGo p (s.length + 1) s k

/-- Negative lookahead `(?! p )`. -/
def mnla {α : Type} (p : M Str) : M α := fun s k =>
  match p s some with
  | some _ => none
  | none => k s

/-- Positive lookahead `(?= p )`. -/
def mla {α : Type} (p : M Str) : M α := fun s k =>
  match p s some with
  | some _ => k s
  | none => none

/-- Word-boundary style test: succeed (consuming nothing) when the next
character is not a word character or the input ended. -/
def mnwBoundary {α : Type} : M α := fun s k =>
  match s with
  | [] => k []
  | c :: _ => if isWordC c then none else k s

/-- `\s*`. -/
def wsStar {α : Type} : M α := mrep isWsC 0 none

/-- `\s+`. -/
def wsPlus {α : Type} : M α := mrep isWsC 1 none

/-- A pattern ready for scanning: given the previous character (for `^`/`\b`
context) and the remaining input, produce a payload on a match at this
position. -/
def Pat := Option Char → Str → Option Str

/-- True when the position has no word character on its left (the `\b` context
in front of a word character). -/
def prevNonWord : Option Char → Bool
  | none => true
  | some c => ¬ isWordC c

/-- True at the start of the input or just after a newline (the `m`-flag `^`). -/
def atLineStart : Option Char → Bool
  | none => true
  | some c => c = '\n'

/-- Scan for the leftmost match of `p`, returning its payload
(JS `RegExp.prototype.exec`, first match only). -/
def scanPat (p : Pat) : Option Char → Str → Option Str
  | prev, s =>
    match p prev s with
    | some r => some r
    | none =>
      match s with
      | [] => none
      | c :: rest => scanPat p (some c) rest

/-- Run a pattern against a whole text (leftmost match payload). -/
def runPat (p : Pat) (t : Str) : Option Str := scanPat p none t

/-- Scan for the leftmost match of `p`, returning its start index
(JS `String.prototype.search`). -/
def scanIdx (p : Pat) : Option Char → Str → Nat → Option Nat
  | prev, s, i =>
    match p prev s with
    | some _ => some i
    | none =>
      match s with
      | [] => none
      | c :: rest => scanIdx p (some c) rest (i + 1)

/-- Index of the leftmost match of `p` in `t` (JS `search`; `none` for `-1`). -/
def searchIdx (p : Pat) (t : Str) : Option Nat := scanIdx p none t 0

/-- Fuelled global scan: collect the text of every (leftmost, non-overlapping)
match of `p`, advancing past each match (JS `String.prototype.match` with the
`g` flag). Zero-length matches advance by one character, as the JS engine does. -/
def findAllAux (p : Pat) : Nat → Option Char → Str → List Str
  | 0, _, _ => []
  | fuel + 1, prev, s =>
    match p prev s with
    | some rest =>
      let len := s.length - rest.length
      if len = 0 then
        match s with
        | [] => []
        | c :: r => findAllAux p fuel (some c) r
      else
        s.take len :: findAllAux p fuel ((s.take len).getLast?) rest
    | none =>
      match s with
      | [] => []
      | c :: r => findAllAux p fuel (some c) r

/-- All matches of `p` in `t` (payloads of span patterns are the rest of the
input, so the span is recovered from the lengths). -/
def findAllPat (p : Pat) (t : Str) : List Str := findAllAux p (t.length + 1) none t

/-- Fuelled splitter: cut `t` at every match of the separator pattern `p`
(JS `String.prototype.split` with a regex separator and no capture groups). -/
def splitAux (p : Pat) : Nat → Option Char → Str → Str → List Str
  | 0, _, acc, s => [acc.reverse ++ s]
  | fuel + 1, prev, acc, s =>
    match p prev s with
    | some rest =>
      let len := s.length - rest.length
      if len = 0 then
        match s with
        | [] => [acc.reverse]
        | c :: r => splitAux p fuel (some c) (c :: acc) r
      else
        acc.reverse :: splitAux p fuel ((s.take len).getLast?) [] rest
    | none =>
      match s with
      | [] => [acc.reverse]
      | c :: r => splitAux p fuel (some c) (c :: acc) r

/-- JS `t.split(p)` for a regex separator `p`. -/
def splitPat (p : Pat) (t : Str) : List Str := splitAux p (t.length + 1) none [] t

/-- Fuelled search for the first match of `p`, returning start index and length. -/
def scanIdxLen (p : Pat) : Option Char → Str → Nat → Option (Nat × Nat)
  | prev, s, i =>
    match p prev s with
    | some rest => some (i, s.length - rest.length)
    | none =>
      match s with
      | [] => none
      | c :: rest => scanIdxLen p (some c) rest (i + 1)

/-- JS `t.replace(p, '')` for a non-global regex: delete the first match. -/
def replaceFirstPat (p : Pat) (t : Str) : Str :=
  match scanIdxLen p none t 0 with
  | some (i, len) => t.take i ++ t.drop (i + len)
  | none => t

/-- JS `t.replace(/^.../, '')` for an anchored regex: delete a match at the
start of the string, if any. -/
def replaceAnchoredPat (p : Pat) (t : Str) : Str :=
  match p none t with
  | some rest => rest
  | none => t

/-- Anchored test (`RegExp.prototype.test` of a `^`-anchored regex). -/
def startTest (p : M Str) (t : Str) : Bool := (p t some).isSome

/-- JS `parseInt` on a string of decimal digits. -/
def parseNat (t : Str) : Nat := t.foldl (fun n c => 10 * n + (c.toNat - 48)) 0

/-- 1-based enumeration of a list (pairing each element with its position). -/
def enumFrom {α : Type} (n : Nat) : List α → List (α × Nat)
  | [] => []
  | a :: r => (a, n) :: enumFrom (n + 1) r

/-!
## Text Segmenter (GhostRef `findReferencesSection`)
-/

/-- Build the `/\n\s*<body>\s*\n/` shape shared by every header start pattern. -/
def headerPat (body : M Str) : Pat := fun _ s =>
  (mseq (mch '\n') (mseq wsStar (mseq body (mseq wsStar (mch '\n'))))) s some

/-- `/\n\s*References?\s*\n/i`. -/
def patRefs : Pat := headerPat (mseq (mlitCI (str "Reference")) (mopt (mchCI 's')))

/-- `/\n\s*Bibliography\s*\n/i`. -/
def patBiblio : Pat := headerPat (mlitCI (str "Bibliography"))

/-- `/\n\s*REFERENCES?\s*\n/i` (the source repeats the first pattern in
upper case; with the `i` flag the two are equivalent). -/
def patREFS : Pat := headerPat (mseq (mlitCI (str "REFERENCE")) (mopt (mchCI 's')))

/-- `/\n\s*Works?\s+Cited\s*\n/i`. -/
def patWorksCited : Pat :=
  headerPat (mseq (mlitCI (str "Work"))
    (mseq (mopt (mchCI 's')) (mseq wsPlus (mlitCI (str "Cited")))))

/-- `/\n\s*Literature\s+Cited\s*\n/i`. -/
def patLitCited : Pat :=
  headerPat (mseq (mlitCI (str "Literature")) (mseq wsPlus (mlitCI (str "Cited"))))

/-- `/\n\s*Cited\s+References?\s*\n/i`. -/
def patCitedRefs : Pat :=
  headerPat (mseq (mlitCI (str "Cited"))
    (mseq wsPlus (mseq (mlitCI (str "Reference")) (mopt (mchCI 's')))))

/-- The `startPatterns` array of `findReferencesSection`, in declared order. -/
def startPatterns : List Pat :=
  [patRefs, patBiblio, patREFS, patWorksCited, patLitCited, patCitedRefs]

/-- Build the `/\n\s*<body>/` shape shared by every end pattern. -/
def endPat (body : M Str) : Pat := fun _ s =>
  (mseq (mch '\n') (mseq wsStar body)) s some

/-- The `endPatterns` array of `findReferencesSection`, in declared order:
`Appendix`, `APPENDIX`, `Further reading`, `Supplementary`, `Acknowledgment`,
`Author contributions`, `Data availability`, `Conflict of interest`,
`Extended Data` (each as `/\n\s*.../i`). -/
def endPatterns : List Pat :=
  [ endPat (mlitCI (str "Appendix")),
    endPat (mlitCI (str "APPENDIX")),
    endPat (mseq (mlitCI (str "Further")) (mseq wsPlus (mlitCI (str "reading")))),
    endPat (mlitCI (str "Supplementary")),
    endPat (mlitCI (str "Acknowledgment")),
    endPat (mseq (mlitCI (str "Author")) (mseq wsPlus (mlitCI (str "contributions")))),
    endPat (mseq (mlitCI (str "Data")) (mseq wsPlus (mlitCI (str "availability")))),
    endPat (mseq (mlitCI (str "Conflict")) (mseq wsPlus
      (mseq (mlitCI (str "of")) (mseq wsPlus (mlitCI (str "interest")))))),
    endPat (mseq (mlitCI (str "Extended")) (mseq wsPlus (mlitCI (str "Data")))) ]

/-- `/\n\s*1\.\s+[A-Z][a-z]+/`: the numbered-references fallback heuristic. -/
def numberedPat : Pat := fun _ s =>
  (mseq (mch '\n') (mseq wsStar (mseq (mch '1') (mseq (mch '.')
    (mseq wsPlus (mseq (mcls isUpperC) (mrep isLowerC 1 none))))))) s some

/-- The `for (const pattern of ...) { ... break; }` loop: the search index of
the first pattern (in declared order) that matches anywhere. -/
def firstHit : List Pat → Str → Option Nat
  | [], _ => none
  | p :: ps, t =>
    match searchIdx p t with
    | some i => some i
    | none => firstHit ps t

/-- The header-scan phase of `findReferencesSection`: `refsStart` after the
`startPatterns` loop (`none` models `-1`). -/
def findRefsStart (t : Str) : Option Nat := firstHit startPatterns t

/-- The numbered-references fallback: the first `1. Author` position, accepted
only in the back half of the document (`numberedStart > text.length * 0.5`). -/
def numberedRefsStart (t : Str) : Option Nat :=
  match searchIdx numberedPat t with
  | some i => if t.length < 2 * i then some i else none
  | none => none

/-- The end-of-references truncation: search each `endPatterns` entry in
`refsText.substring(100)`, truncating at the first pattern that hits. -/
def trimEndSection (refs : Str) : Str :=
  match firstHit endPatterns (refs.drop 100) with
  | some e => refs.take (e + 100)
  | none => refs

/-- GhostRef `findReferencesSection`: header scan, then the numbered-refs
heuristic, then the last-40% fallback (`text.substring(Math.floor(text.length
* 0.6))`, whose floor agrees with natural division for string lengths). -/
def findReferencesSection (t : Str) : Str :=
  match findRefsStart t with
  | some i => trimEndSection (t.drop i)
  | none =>
    match numberedRefsStart t with
    | some i => trimEndSection (t.drop i)
    | none => t.drop (6 * t.length / 10)

/-!
## Citation Splitter
-/

/-- A raw citation as produced by the splitter and consumed by the
orchestrator: `{ raw, index }`. -/
structure RawCitation where
  raw : Str
  index : Nat
deriving DecidableEq, Repr

/-- `cleanCitation`: collapse whitespace, trim, truncate to 500 characters,
return `null` for the empty string or when at most 10 characters remain. -/
def cleanCitation (t : Str) : Option Str :=
  if t.isEmpty then none
  else
    let cleaned := trimWs (collapseWs t)
    let cleaned := if cleaned.length > 500 then cleaned.take 500 else cleaned
    if cleaned.length > 10 then some cleaned else none

/-- `/\b(19|20)\d{2}\b/`: a plausible year token. -/
def yearTokenPat : Pat := fun prev s =>
  if prevNonWord prev then
    (mseq (malt (mlit (str "19")) (mlit (str "20")))
      (mseq (mrep Char.isDigit 2 (some 2)) mnwBoundary)) s some
  else none

/-- `/[A-Z]\.|[A-Z][a-z]+,/`: an author-like token. -/
def authorTokenPat : Pat := fun _ s =>
  (malt (mseq (mcls isUpperC) (mch '.'))
    (mseq (mcls isUpperC) (mseq (mrep isLowerC 1 none) (mch ',')))) s some

/-- `/^(Theorem|Lemma|Proof|Definition|Appendix|Figure|Table)\b/i`: a
document-structure keyword at the start of the text. -/
def structKeywordStart : M Str :=
  mseq (malt (mlitCI (str "Theorem")) (malt (mlitCI (str "Lemma"))
    (malt (mlitCI (str "Proof")) (malt (mlitCI (str "Definition"))
      (malt (mlitCI (str "Appendix")) (malt (mlitCI (str "Figure"))
        (mlitCI (str "Table")))))))) mnwBoundary

/-- `looksLikeCitation`: a year token, an author-like token, a length between
30 and 1000, and no leading structure keyword. -/
def looksLikeCitation (t : Str) : Bool :=
  if (searchIdx yearTokenPat t).isNone then false
  else if (searchIdx authorTokenPat t).isNone then false
  else if t.length < 30 ∨ t.length > 1000 then false
  else if startTest structKeywordStart t then false
  else true

/-- The shared push step of every GhostRef strategy: clean each candidate and
keep it only when `looksLikeCitation` accepts the cleaned text. -/
def pushCleanGR (items : List (Str × Nat)) : List RawCitation :=
  items.filterMap fun p =>
    match cleanCitation p.1 with
    | some c => if looksLikeCitation c then some ⟨c, p.2⟩ else none
    | none => none

/-- `/\[\d+\][^\[]+/`: a bracket-numbered citation run (GhostRef pattern 1). -/
def mBracket : Pat := fun _ s =>
  (mseq (mch '[') (mseq (mrep Char.isDigit 1 none)
    (mseq (mch ']') (mrep (fun c => c ≠ '[') 1 none)))) s some

/-- `/\[(\d+)\]/`: the bracketed ordinal of a match. -/
def capBracketNum : Pat := fun _ s =>
  (mch '[') s fun s1 =>
  (mrep Char.isDigit 1 none) s1 fun s2 =>
  (mch ']') s2 fun _ => some (s1.take (s1.length - s2.length))

/-- `/\[\d+\]\s*/`: the marker stripped from a bracket-numbered match. -/
def stripBracketPat : Pat := fun _ s =>
  (mseq (mch '[') (mseq (mrep Char.isDigit 1 none) (mseq (mch ']') wsStar))) s some

/-- The continuation-line group `(?:\n(?!\s*\d{1,3}\.)[^\n]+)` of the dotted
pattern. -/
def dottedContLine : M Str :=
  mseq (mch '\n')
    (mseq (mnla (mseq wsStar (mseq (mrep Char.isDigit 1 (some 3)) (mch '.'))))
      (mrep (fun c => c ≠ '\n') 1 none))

/-- `/(?:^|\n)\s*(\d{1,3})\.\s+[A-Z][^\n]+(?:\n(?!\s*\d{1,3}\.)[^\n]+)*/gm`:
a dot-numbered citation with its continuation lines (GhostRef pattern 2). -/
def mDotted : Pat := fun prev s =>
  let tail : M Str :=
    mseq wsStar (mseq (mrep Char.isDigit 1 (some 3)) (mseq (mch '.')
      (mseq wsPlus (mseq (mcls isUpperC)
        (mseq (mrep (fun c => c ≠ '\n') 1 none) (mstar dottedContLine))))))
  (if atLineStart prev then tail s some else none) <|> (mseq (mch '\n') tail) s some

/-- `/(\d{1,3})\./`: the dotted ordinal of a match. -/
def capDotNum : Pat := fun _ s =>
  (mrep Char.isDigit 1 (some 3)) s fun s1 =>
  (mch '.') s1 fun _ => some (s.take (s.length - s1.length))

/-- `/^\s*\d{1,3}\.\s*/`: the marker stripped from a dot-numbered match. -/
def stripDotPat : Pat := fun _ s =>
  (mseq wsStar (mseq (mrep Char.isDigit 1 (some 3)) (mseq (mch '.') wsStar))) s some

/-- The initials alternative `,?\s+[A-Z]\.?(?:\s*[A-Z]\.?)*` of the
et-al. pattern. -/
def initialsGroup : M Str :=
  mseq (mopt (mch ',')) (mseq wsPlus (mseq (mcls isUpperC) (mseq (mopt (mch '.'))
    (mstar (mseq wsStar (mseq (mcls isUpperC) (mopt (mch '.'))))))))

/-- The `\s+et\s+al\.` alternative of the et-al. pattern. -/
def etAlGroup : M Str :=
  mseq wsPlus (mseq (mlit (str "et")) (mseq wsPlus (mlit (str "al."))))

/-- `/[A-Z][a-z]+(?:,?\s+[A-Z]\.?(?:\s*[A-Z]\.?)*|\s+et\s+al\.)[^(]{10,200}\(\d{4}\)/`:
a Nature-style citation (GhostRef pattern 3). -/
def mEtAl : Pat := fun _ s =>
  (mseq (mcls isUpperC) (mseq (mrep isLowerC 1 none)
    (mseq (malt initialsGroup etAlGroup)
      (mseq (mrep (fun c => c ≠ '(') 10 (some 200))
        (mseq (mch '(') (mseq (mrep Char.isDigit 4 (some 4)) (mch ')'))))))) s some

/-- `/[A-Z][a-z]+,?\s+[A-Z]\.?[^.]*\(\d{4}\)[^.]*\./`: an author-year citation
(GhostRef pattern 4). -/
def mAuthorYear : Pat := fun _ s =>
  (mseq (mcls isUpperC) (mseq (mrep isLowerC 1 none) (mseq (mopt (mch ','))
    (mseq wsPlus (mseq (mcls isUpperC) (mseq (mopt (mch '.'))
      (mseq (mrep (fun c => c ≠ '.') 0 none)
        (mseq (mch '(') (mseq (mrep Char.isDigit 4 (some 4)) (mseq (mch ')')
          (mseq (mrep (fun c => c ≠ '.') 0 none) (mch '.')))))))))))) s some

/-- GhostRef `parseCitations`: try the four match-based strategies in order;
a strategy is used when its raw match list has more than 2 elements, and its
result is returned when at least one candidate survives cleaning and the
`looksLikeCitation` predicate. -/
def parseCitations (t : Str) : List RawCitation :=
  let b := findAllPat mBracket t
  let c1 := if b.length > 2 then
      pushCleanGR ((enumFrom 1 b).map fun p =>
        (trimWs (replaceFirstPat stripBracketPat p.1),
         ((runPat capBracketNum p.1).map parseNat).getD p.2))
    else []
  if c1 ≠ [] then c1 else
  let dm := findAllPat mDotted t
  let c2 := if dm.length > 2 then
      pushCleanGR ((enumFrom 1 dm).map fun p =>
        (trimWs (replaceAnchoredPat stripDotPat p.1),
         ((runPat capDotNum p.1).map parseNat).getD p.2))
    else []
  if c2 ≠ [] then c2 else
  let em := findAllPat mEtAl t
  let c3 := if em.length > 2 then pushCleanGR (enumFrom 1 em) else []
  if c3 ≠ [] then c3 else
  let am := findAllPat mAuthorYear t
  let c4 := if am.length > 2 then pushCleanGR (enumFrom 1 am) else []
  if c4 ≠ [] then c4 else []

/-- `/\[\d+\]\s*/` as a split separator (CitationLint v0.0.5 pattern 1). -/
def sepBracket : Pat := fun _ s =>
  (mseq (mch '[') (mseq (mrep Char.isDigit 1 none) (mseq (mch ']') wsStar))) s some

/-- `/\n\s*\d+\.\s+/` as a split separator (v0.0.5 pattern 2). -/
def sepDotNum : Pat := fun _ s =>
  (mseq (mch '\n') (mseq wsStar (mseq (mrep Char.isDigit 1 none)
    (mseq (mch '.') wsPlus)))) s some

/-- The lookahead body `[A-Z][a-z]+,?\s+[A-Z]\.?.*?\(\d{4}\)` of the v0.0.5
author-year separator (`.` does not cross newlines). -/
def lookAuthorYear : M Str :=
  mseq (mcls isUpperC) (mseq (mrep isLowerC 1 none) (mseq (mopt (mch ','))
    (mseq wsPlus (mseq (mcls isUpperC) (mseq (mopt (mch '.'))
      (mseq (mrepLazy (fun c => c ≠ '\n'))
        (mseq (mch '(') (mseq (mrep Char.isDigit 4 (some 4)) (mch ')')))))))))

/-- `/\n(?=[A-Z][a-z]+,?\s+[A-Z]\.?.*?\(\d{4}\))/g` as a split separator
(v0.0.5 pattern 3). -/
def sepAuthorYear : Pat := fun _ s => (mseq (mch '\n') (mla lookAuthorYear)) s some

/-- `/\.\s*\n\s*\n|\n\s*\n/` as a split separator (v0.0.5 fallback). -/
def sepPara : Pat := fun _ s =>
  (malt (mseq (mch '.') (mseq wsStar (mseq (mch '\n') (mseq wsStar (mch '\n')))))
    (mseq (mch '\n') (mseq wsStar (mch '\n')))) s some

/-- The shared push step of the v0.0.5 numbered strategies: clean each piece
and keep every non-null result. -/
def pushCleanV5 (items : List (Str × Nat)) : List RawCitation :=
  items.filterMap fun p => (cleanCitation p.1).map fun c => (⟨c, p.2⟩ : RawCitation)

/-- CitationLint v0.0.5 `parseCitations`: split-based strategies, used when
the split yields more than 2 pieces; pieces after the first are cleaned and
indexed by their position; the paragraph-split fallback keeps cleaned pieces
longer than 30 characters. -/
def parseCitationsV5 (t : Str) : List RawCitation :=
  let m1 := splitPat sepBracket t
  let c1 := if m1.length > 2 then pushCleanV5 (enumFrom 1 (m1.drop 1)) else []
  if c1 ≠ [] then c1 else
  let m2 := splitPat sepDotNum t
  let c2 := if m2.length > 2 then pushCleanV5 (enumFrom 1 (m2.drop 1)) else []
  if c2 ≠ [] then c2 else
  let m3 := splitPat sepAuthorYear t
  let c3 := if m3.length > 2 then pushCleanV5 (enumFrom 1 (m3.drop 1)) else []
  if c3 ≠ [] then c3 else
  (enumFrom 1 (splitPat sepPara t)).filterMap fun p =>
    match cleanCitation p.1 with
    | some c => if c.length > 30 then some ⟨c, p.2⟩ else none
    | none => none

/-!
## Field Extractor
-/

/-- The token class `[^\s\]\)>,;'"]` of the DOI patterns. -/
def doiTokC (c : Char) : Bool :=
  ¬ (isWsC c ∨ c = ']' ∨ c = ')' ∨ c = '>' ∨ c = ',' ∨ c = ';' ∨ c = apos ∨ c = dquote)

/-- `/\b(10\.\d{4,}\/[^\s\]\)>,;'"]+)/gi`: the standard bare-DOI pattern
(capture group 1, which here is the whole match). -/
def patDOIa : Pat := fun prev s =>
  if prevNonWord prev then
    (mlit (str "10.")) s fun s1 =>
    (mrep Char.isDigit 4 none) s1 fun s2 =>
    (mch '/') s2 fun s3 =>
    (mrep doiTokC 1 none) s3 fun s4 => some (s.take (s.length - s4.length))
  else none

/-- `/doi[:\s]+([^\s\]\)>,;'"]+)/gi`: the `doi:`-prefixed pattern. -/
def patDOIb : Pat := fun _ s =>
  (mlitCI (str "doi")) s fun s1 =>
  (mrep (fun c => c = ':' ∨ isWsC c) 1 none) s1 fun s2 =>
  (mrep doiTokC 1 none) s2 fun s3 => some (s2.take (s2.length - s3.length))

/-- `/https?:\/\/(?:dx\.)?doi\.org\/([^\s\]\)>,;'"]+)/gi`: the URL pattern. -/
def patDOIc : Pat := fun _ s =>
  (mlitCI (str "http")) s fun s1 =>
  (mopt (mchCI 's')) s1 fun s2 =>
  (mlit (str "://")) s2 fun s3 =>
  (mopt (mlitCI (str "dx."))) s3 fun s4 =>
  (mlitCI (str "doi.org/")) s4 fun s5 =>
  (mrep doiTokC 1 none) s5 fun s6 => some (s5.take (s5.length - s6.length))

/-- The `DOI_PATTERNS` array, in declared order. -/
def doiPatterns : List Pat := [patDOIa, patDOIb, patDOIc]

/-- The trailing-punctuation class `[.,;:\)\]}>'"]` stripped from a captured
DOI. -/
def doiPunctC (c : Char) : Bool :=
  c = '.' ∨ c = ',' ∨ c = ';' ∨ c = ':' ∨ c = ')' ∨ c = ']' ∨ c = '}' ∨
  c = '>' ∨ c = apos ∨ c = dquote

/-- `doi.replace(/[.,;:\)\]}>'"]+$/, '')`: strip trailing punctuation. -/
def stripTrailingPunct (t : Str) : Str := (t.reverse.dropWhile doiPunctC).reverse

/-- The `extractDOI` pattern loop: the first match of each pattern is cleaned
and validated (`startsWith('10.') && length > 7`); an invalid capture falls
through to the next pattern. -/
def extractDOIGo : List Pat → Str → Option Str
  | [], _ => none
  | p :: ps, t =>
    match runPat p t with
    | some cap =>
      let d := stripTrailingPunct cap
      if d.take 3 = str "10." ∧ 7 < d.length then some d else extractDOIGo ps t
    | none => extractDOIGo ps t

/-- GhostRef `extractDOI`. -/
def extractDOI (t : Str) : Option Str := extractDOIGo doiPatterns t

/-- The quote class `["'']` of title pattern 1 (the source lists the ASCII
apostrophe twice). -/
def quoteC (c : Char) : Bool := c = dquote ∨ c = apos

/-- `/["'']([^"'']{10,200})["'']/`: a quoted title (pattern 1). -/
def titleP1 : Pat := fun _ s =>
  (mcls quoteC) s fun s1 =>
  (mrep (fun c => ¬ quoteC c) 10 (some 200)) s1 fun s2 =>
  (mcls quoteC) s2 fun _ => some (s1.take (s1.length - s2.length))

/-- `/et\s+al\.\s+([A-Z][^.]{10,150})\./`: a title after `et al.` (pattern 2). -/
def titleP2 : Pat := fun _ s =>
  (mlit (str "et")) s fun s1 =>
  (mrep isWsC 1 none) s1 fun s2 =>
  (mlit (str "al.")) s2 fun s3 =>
  (mrep isWsC 1 none) s3 fun s4 =>
  (mseq (mcls isUpperC) (mrep (fun c => c ≠ '.') 10 (some 150))) s4 fun s5 =>
  (mch '.') s5 fun _ => some (s4.take (s4.length - s5.length))

/-- `/[A-Z]\.\s+([A-Z][A-Za-z][^.]{10,150})\./`: a title after author initials
(pattern 3). -/
def titleP3 : Pat := fun _ s =>
  (mcls isUpperC) s fun s1 =>
  (mch '.') s1 fun s2 =>
  (mrep isWsC 1 none) s2 fun s3 =>
  (mseq (mcls isUpperC) (mseq (mcls isAlphaC)
    (mrep (fun c => c ≠ '.') 10 (some 150)))) s3 fun s4 =>
  (mch '.') s4 fun _ => some (s3.take (s3.length - s4.length))

/-- `/\(\d{4}\)\.\s*([^.]{10,200})\./`: an APA-style title after the year
(pattern 4). -/
def titleP4 : Pat := fun _ s =>
  (mch '(') s fun s1 =>
  (mrep Char.isDigit 4 (some 4)) s1 fun s2 =>
  (mlit (str ").")) s2 fun s3 =>
  (mrep isWsC 0 none) s3 fun s4 =>
  (mrep (fun c => c ≠ '.') 10 (some 200)) s4 fun s5 =>
  (mch '.') s5 fun _ => some (s4.take (s4.length - s5.length))

/-- The journal-marker alternation of pattern 5. -/
def titleJournalAlt : M Str :=
  malt (mlit (str "Nature")) (malt (mlit (str "Science")) (malt (mlit (str "Cell"))
    (malt (mlit (str "Nat.")) (malt (mlit (str "Phys.")) (malt (mlit (str "J."))
      (malt (mlit (str "Proc.")) (mseq (mlit (str "In")) (mcls isWsC))))))))

/-- `/\.\s+([A-Z][^.]{10,120})\.\s*(?:Nature|Science|Cell|Nat\.|Phys\.|J\.|Proc\.|In\s)/`:
a title before a journal marker (pattern 5). -/
def titleP5 : Pat := fun _ s =>
  (mch '.') s fun s1 =>
  (mrep isWsC 1 none) s1 fun s2 =>
  (mseq (mcls isUpperC) (mrep (fun c => c ≠ '.') 10 (some 120))) s2 fun s3 =>
  (mch '.') s3 fun s4 =>
  (mseq (mrep isWsC 0 none) titleJournalAlt) s4 fun _ =>
    some (s2.take (s2.length - s3.length))

/-- `/[,\.]\s*[Ii]n[:\s]+([^,]{10,100})/`: a proceedings title after `in:`
(pattern 6). -/
def titleP6 : Pat := fun _ s =>
  (mcls (fun c => c = ',' ∨ c = '.')) s fun s1 =>
  (mrep isWsC 0 none) s1 fun s2 =>
  (mcls (fun c => c = 'I' ∨ c = 'i')) s2 fun s3 =>
  (mch 'n') s3 fun s4 =>
  (mrep (fun c => c = ':' ∨ isWsC c) 1 none) s4 fun s5 =>
  (mrep (fun c => c ≠ ',') 10 (some 100)) s5 fun s6 =>
    some (s5.take (s5.length - s6.length))

/-- `/^[A-Z][a-z]+,\s*[A-Z]\./`: a sentence that is an author-list shape. -/
def sentAuthors : M Str :=
  mseq (mcls isUpperC) (mseq (mrep isLowerC 1 none) (mseq (mch ',')
    (mseq wsStar (mseq (mcls isUpperC) (mch '.')))))

/-- `/^\d+,\s*\d+/`: a bare volume-page sentence. -/
def sentVolPage : M Str :=
  mseq (mrep Char.isDigit 1 none) (mseq (mch ',') (mseq wsStar (mrep Char.isDigit 1 none)))

/-- `/^[A-Z][a-z]+\.\s*[A-Z][a-z]+\./`: a journal-abbreviation chain. -/
def sentJournalChain : M Str :=
  mseq (mcls isUpperC) (mseq (mrep isLowerC 1 none) (mseq (mch '.')
    (mseq wsStar (mseq (mcls isUpperC) (mseq (mrep isLowerC 1 none) (mch '.'))))))

/-- `/\.\s+/` as the sentence separator of the title fallback. -/
def sentSep : Pat := fun _ s => (mseq (mch '.') wsPlus) s some

/-- The acceptance test of the sentence fallback: none of the skip conditions
fires, the sentence starts with a capital and contains a space. -/
def sentOk (sent : Str) : Bool :=
  if startTest sentAuthors sent then false
  else if sent.length < 15 ∨ sent.length > 200 then false
  else if startTest sentVolPage sent then false
  else if startTest sentJournalChain sent then false
  else startTest (mcls isUpperC) sent ∧ sent.contains ' '

/-- GhostRef `extractTitle`: collapse and trim the text, try patterns 1-6 in
order (returning the trimmed capture of the first hit), then fall back to the
first acceptable period-delimited sentence. -/
def extractTitle (raw : Str) : Option Str :=
  let text := trimWs (collapseWs raw)
  match runPat titleP1 text with
  | some cap => some (trimWs cap)
  | none =>
  match runPat titleP2 text with
  | some cap => some (trimWs cap)
  | none =>
  match runPat titleP3 text with
  | some cap => some (trimWs cap)
  | none =>
  match runPat titleP4 text with
  | some cap => some (trimWs cap)
  | none =>
  match runPat titleP5 text with
  | some cap => some (trimWs cap)
  | none =>
  match runPat titleP6 text with
  | some cap => some (trimWs cap)
  | none => ((splitPat sentSep text).find? sentOk).map trimWs

/-- The bibliographic fallback bundle of `extractBiblio`. -/
structure Biblio where
  author : Option Str := none
  year : Option Str := none
  journal : Option Str := none
  volume : Option Str := none
  page : Option Str := none
deriving DecidableEq, Repr

/-- `/^([A-Z][a-z]+)/`: the leading author surname (anchored). -/
def biblioAuthor (t : Str) : Option Str :=
  (mcls isUpperC : M Str) t fun s1 =>
  (mrep isLowerC 1 none) s1 fun s2 => some (t.take (t.length - s2.length))

/-- `/\((\d{4})\)/`: the parenthesised year. -/
def capYearB : Pat := fun _ s =>
  (mch '(') s fun s1 =>
  (mrep Char.isDigit 4 (some 4)) s1 fun s2 =>
  (mch ')') s2 fun _ => some (s1.take (s1.length - s2.length))

/-- The journal alternation
`Nature|Science|Cell|PNAS|PLoS|Phys\.?\s*Rev|J\.?\s*Chem|Nat\.?\s*\w+` (with
the `i` flag), in declared order. -/
def biblioJournalAlt : M Str :=
  malt (mlitCI (str "Nature")) (malt (mlitCI (str "Science"))
    (malt (mlitCI (str "Cell")) (malt (mlitCI (str "PNAS"))
      (malt (mlitCI (str "PLoS"))
        (malt (mseq (mlitCI (str "Phys")) (mseq (mopt (mch '.')) (mseq wsStar (mlitCI (str "Rev")))))
          (malt (mseq (mlitCI (str "J")) (mseq (mopt (mch '.')) (mseq wsStar (mlitCI (str "Chem")))))
            (mseq (mlitCI (str "Nat")) (mseq (mopt (mch '.')) (mseq wsStar (mrep isWordC 1 none))))))))))

/-- `/\b(Nature|Science|Cell|PNAS|PLoS|Phys\.?\s*Rev|J\.?\s*Chem|Nat\.?\s*\w+)\b/i`:
the first journal pattern. -/
def capJournal1 : Pat := fun prev s =>
  if prevNonWord prev then
    (mseq biblioJournalAlt mnwBoundary) s fun s1 => some (s.take (s.length - s1.length))
  else none

/-- `/\b([A-Z][a-z]+\.?\s+[A-Z][a-z]+\.?)\s+\d+/`: the generic venue-shape
journal pattern. -/
def capJournal2 : Pat := fun prev s =>
  if prevNonWord prev then
    (mseq (mcls isUpperC) (mseq (mrep isLowerC 1 none) (mseq (mopt (mch '.'))
      (mseq wsPlus (mseq (mcls isUpperC) (mseq (mrep isLowerC 1 none)
        (mopt (mch '.')))))))) s fun s1 =>
    (mseq wsPlus (mrep Char.isDigit 1 none)) s1 fun _ =>
      some (s.take (s.length - s1.length))
  else none

/-- Scan for `/\b(\d{1,4}),\s*(\d+)/`: the volume and page captures. -/
def capVolPageGo : Option Char → Str → Option (Str × Str)
  | prev, s =>
    let here : Option (Str × Str) :=
      if prevNonWord prev then
        (mrep Char.isDigit 1 (some 4) : M (Str × Str)) s fun s1 =>
        (mch ',') s1 fun s2 =>
        (mrep isWsC 0 none) s2 fun s3 =>
        (mrep Char.isDigit 1 none) s3 fun s4 =>
          some (s.take (s.length - s1.length), s3.take (s3.length - s4.length))
      else none
    match here with
    | some r => some r
    | none =>
      match s with
      | [] => none
      | c :: rest => capVolPageGo (some c) rest

/-- The volume/page extraction of `extractBiblio`. -/
def capVolPage (t : Str) : Option (Str × Str) := capVolPageGo none t

/-- The number of populated fields of a bundle (JS `Object.keys(biblio).length`;
volume and page are set together and count as two keys). -/
def biblioCount (b : Biblio) : Nat :=
  (if b.author.isSome then 1 else 0) + (if b.year.isSome then 1 else 0) +
  (if b.journal.isSome then 1 else 0) + (if b.volume.isSome then 1 else 0) +
  (if b.page.isSome then 1 else 0)

/-- GhostRef `extractBiblio`: surname, year, journal (two patterns tried in
order) and volume/page; the bundle is returned only when at least two fields
were found. -/
def extractBiblio (t : Str) : Option Biblio :=
  let vp := capVolPage t
  let b : Biblio :=
    { author := biblioAuthor t,
      year := runPat capYearB t,
      journal := match runPat capJournal1 t with
        | some j => some j
        | none => runPat capJournal2 t,
      volume := vp.map Prod.fst,
      page := vp.map Prod.snd }
  if 2 ≤ biblioCount b then some b else none

/-!
## Similarity Scorer
-/

/-- JS `str.split(/\s+/)`: the whitespace-delimited tokens (the split's
possible leading and trailing empty-string pieces are dropped by the
`length > 2` filter that always follows, so they are not materialised). -/
def splitWsTokens : Str → List Str
  | [] => []
  | c :: r =>
    if isWsC c then splitWsTokens r
    else
      (c :: r.takeWhile (fun a => ¬ isWsC a)) ::
        splitWsTokens (r.drop (r.takeWhile (fun a => ¬ isWsC a)).length)
termination_by t => t.length
decreasing_by
  all_goals simp
  omega

/-- The token set of one side of `calculateSimilarity`:
`new Set(str.split(/\s+/).filter(w => w.length > 2))`. -/
def wordSet (t : Str) : Finset Str :=
  ((splitWsTokens t).filter fun w => w.length > 2).toFinset

/-- `calculateSimilarity`: Jaccard similarity of the two token sets, `0` when
the union is empty. -/
def calculateSimilarity (s1 s2 : Str) : ℚ :=
  let w1 := wordSet s1
  let w2 := wordSet s2
  if 0 < (w1 ∪ w2).card then ((w1 ∩ w2).card : ℚ) / ((w1 ∪ w2).card : ℚ) else 0

/-- JS `Math.round` on the non-negative rationals the pipeline produces. -/
def jsRound (q : ℚ) : ℤ := ⌊q + 1 / 2⌋

/-!
## Verification Orchestrator

The CrossRef collaborator is modelled as an oracle (`Lookup`).  A call either
throws (network failure, or the JSON-parse failure that the source catches in
the same `try` block) or produces an HTTP status with the parsed body: a
single work for the DOI endpoint, a list of items for the two search
endpoints.  URL encoding is transport-level detail and is not modelled: a
query reaches the oracle as the string the source passes to
`encodeURIComponent`.
-/

/-- An author record of a CrossRef work (`{ family, name }`). -/
structure Author where
  family : Option Str := none
  name : Option Str := none
deriving DecidableEq, Repr

/-- The fields of a CrossRef work that the pipeline reads. -/
structure Work where
  title : List Str := []
  author : List Author := []
  published : Option (List (List Int)) := none
  created : Option (List (List Int)) := none
  DOI : Str := []
  containerTitle : List Str := []
  publisher : Option Str := none
deriving DecidableEq, Repr

/-- Outcome of a `fetch` of the DOI endpoint. -/
inductive DOIFetch where
  | thrown (msg : Str)
  | resp (status : Nat) (work : Work)
deriving DecidableEq, Repr

/-- Outcome of a `fetch` of a search endpoint. -/
inductive SearchFetch where
  | thrown (msg : Str)
  | resp (status : Nat) (items : List Work)
deriving DecidableEq, Repr

/-- The two search endpoints (`query.title` and `query.bibliographic`). -/
inductive SearchKind where
  | title
  | biblio
deriving DecidableEq, Repr

/-- The lookup oracle: the external CrossRef collaborator. -/
structure Lookup where
  byDOI : Str → DOIFetch
  search : SearchKind → Str → SearchFetch

/-- JS `Response.ok`: status in the 200-299 range. -/
def isOk (status : Nat) : Bool := 200 ≤ status ∧ status < 300

/-- JS `a || d` for an optional string, where the empty string is falsy. -/
def jsOr (a : Option Str) (d : Str) : Str :=
  match a with
  | some s => if s.isEmpty then d else s
  | none => d

/-- JS `error.message || 'Network error'`. -/
def jsOrNetworkError (msg : Str) : Str :=
  if msg.isEmpty then str "Network error" else msg

/-- The string `'HTTP ' + response.status`. -/
def httpErrStr (status : Nat) : Str := str "HTTP " ++ str (toString status)

/-- `work.published?.['date-parts']?.[0]?.[0]` (and likewise for `created`). -/
def firstDatePart (dp : Option (List (List Int))) : Option Int :=
  (dp.bind List.head?).bind List.head?

/-- `String(work.published?.[...] || work.created?.[...] || 'Unknown')`
(`0` is falsy in JS, hence the explicit zero checks). -/
def yearOf (w : Work) : Str :=
  match firstDatePart w.published with
  | some y =>
    if y ≠ 0 then str (toString y)
    else
      match firstDatePart w.created with
      | some z => if z ≠ 0 then str (toString z) else str "Unknown"
      | none => str "Unknown"
  | none =>
    match firstDatePart w.created with
    | some z => if z ≠ 0 then str (toString z) else str "Unknown"
    | none => str "Unknown"

/-- `a.family || a.name || 'Unknown'` for one author. -/
def authorName (a : Author) : Str := jsOr a.family (jsOr a.name (str "Unknown"))

/-- Concatenate a list of strings with a separator. -/
def joinSep (sep : Str) : List Str → Str
  | [] => []
  | [x] => x
  | x :: xs => x ++ sep ++ joinSep sep xs

/-- The author display string: first three family names joined with `', '`,
followed by `' et al.'` when more than three, `'Unknown'` when none. -/
def authorStr (as : List Author) : Str :=
  if as.isEmpty then str "Unknown"
  else joinSep (str ", ") ((as.take 3).map authorName) ++
    (if as.length > 3 then str " et al." else [])

/-- `work['container-title']?.[0] || work.publisher || 'Unknown'`. -/
def journalOf (w : Work) : Str := jsOr w.containerTitle.head? (jsOr w.publisher (str "Unknown"))

/-- The result object of `verifyDOI` (no `index`/`raw` yet; those are added by
the object spread at each call site, where a field present here overrides the
spread-in `doi`). -/
structure DOIVerifyResult where
  valid : Option Bool := none
  error : Option Str := none
  title : Option Str := none
  authors : Option Str := none
  year : Option Str := none
  doi : Option Str := none
  journal : Option Str := none
  method : Option Str := none
deriving DecidableEq, Repr

/-- GhostRef `verifyDOI`: 404 means not found; any other non-2xx status or an
exception means indeterminate; success builds the resolved fields with
`'Unknown'` defaults and `method: 'doi'`. -/
def verifyDOI (L : Lookup) (doi : Str) : DOIVerifyResult :=
  match L.byDOI doi with
  | .thrown msg => { valid := none, error := some (jsOrNetworkError msg) }
  | .resp status work =>
    if status = 404 then
      { valid := some false, error := some (str "DOI not found in CrossRef") }
    else if ¬ isOk status then
      { valid := none, error := some (httpErrStr status) }
    else
      { valid := some true,
        title := some (jsOr work.title.head? (str "Unknown")),
        authors := some (authorStr work.author),
        year := some (yearOf work),
        doi := some work.DOI,
        journal := some (journalOf work),
        method := some (str "doi") }

/-- The per-citation verification record (one JS result object; absent JS
keys are `none`). -/
structure CitResult where
  index : Nat := 0
  raw : Str := []
  doi : Option Str := none
  valid : Option Bool := none
  error : Option Str := none
  method : Option Str := none
  title : Option Str := none
  authors : Option Str := none
  year : Option Str := none
  journal : Option Str := none
  similarity : Option Int := none
  searchedTitle : Option Str := none
  searchedBiblio : Option Str := none
deriving DecidableEq, Repr

/-- `{ index, raw, doi, ...result }`: the object assembled from a `verifyDOI`
result (the spread's `doi`, when present, overrides the extracted one). -/
def assembleDOI (index : Nat) (raw doi : Str) (r : DOIVerifyResult) : CitResult :=
  { index := index, raw := raw,
    doi := r.doi <|> some doi,
    valid := r.valid, error := r.error, title := r.title, authors := r.authors,
    year := r.year, journal := r.journal, method := r.method }

/-- GhostRef `searchCrossRef`: title search returning the single best
candidate; a non-empty result is classified valid with the similarity
recorded, with no similarity threshold applied. -/
def searchCrossRef (L : Lookup) (title raw : Str) (index : Nat) : CitResult :=
  match L.search .title title with
  | .thrown msg =>
    { index := index, raw := raw, searchedTitle := some title,
      valid := none, error := some (jsOrNetworkError msg) }
  | .resp status items =>
    if ¬ isOk status then
      { index := index, raw := raw, searchedTitle := some title,
        valid := none, error := some (httpErrStr status) }
    else
      match items with
      | [] =>
        { index := index, raw := raw, searchedTitle := some title,
          valid := some false,
          error := some (str "No matching publication found in CrossRef") }
      | work :: _ =>
        let foundTitle := jsOr work.title.head? []
        let similarity := calculateSimilarity (lowerStr title) (lowerStr foundTitle)
        { index := index, raw := raw, searchedTitle := some title,
          valid := some true,
          title := some foundTitle,
          authors := some (authorStr work.author),
          year := some (yearOf work),
          doi := some work.DOI,
          journal := some (journalOf work),
          similarity := some (jsRound (100 * similarity)) }

/-- The bibliographic query string: author, journal, year (each with a
trailing space when present) then volume. -/
def buildBiblioQuery (b : Biblio) : Str :=
  (match b.author with | some a => a ++ [' '] | none => []) ++
  (match b.journal with | some j => j ++ [' '] | none => []) ++
  (match b.year with | some y => y ++ [' '] | none => []) ++
  (match b.volume with | some v => v | none => [])

/-- GhostRef `searchCrossRefBiblio`: bibliographic fallback search (its
`catch` records `error.message` without the `'Network error'` default). -/
def searchCrossRefBiblio (L : Lookup) (b : Biblio) (raw : Str) (index : Nat) : CitResult :=
  let query := buildBiblioQuery b
  match L.search .biblio (trimWs query) with
  | .thrown msg =>
    { index := index, raw := raw, valid := none, error := some msg }
  | .resp status items =>
    if ¬ isOk status then
      { index := index, raw := raw, valid := none, error := some (httpErrStr status) }
    else
      match items with
      | [] =>
        { index := index, raw := raw, searchedBiblio := some query,
          valid := some false, error := some (str "No match found") }
      | work :: _ =>
        { index := index, raw := raw, valid := some true,
          title := some (jsOr work.title.head? (str "Unknown")),
          authors := some (authorStr work.author),
          year := some (yearOf work),
          doi := some work.DOI,
          journal := some (journalOf work),
          method := some (str "biblio") }

/-- `!result || result.valid === false`: the guard before the bibliographic
fallback. -/
def needsBiblio : Option CitResult → Bool
  | none => true
  | some r => r.valid = some false

/-- `if (!result || (biblioResult.valid === true && result.valid !== true))
result = biblioResult`. -/
def pickBiblio (r1 : Option CitResult) (br : CitResult) : CitResult :=
  match r1 with
  | none => br
  | some r => if br.valid = some true ∧ ¬ r.valid = some true then br else r

/-- The loop body of GhostRef `verifyCitations` for one citation: DOI first,
else title search (when a title longer than 15 characters was extracted, its
result tagged `method: 'title'`), else/also the bibliographic fallback, else
the could-not-extract record. -/
def processCitation (L : Lookup) (c : RawCitation) : CitResult :=
  match extractDOI c.raw with
  | some doi => assembleDOI c.index c.raw doi (verifyDOI L doi)
  | none =>
    let step2 : Option CitResult :=
      match extractTitle c.raw with
      | some title =>
        if 15 < title.length then
          some { searchCrossRef L title c.raw c.index with method := some (str "title") }
        else none
      | none => none
    let step3 : Option CitResult :=
      if needsBiblio step2 then
        match extractBiblio c.raw with
        | some b => some (pickBiblio step2 (searchCrossRefBiblio L b c.raw c.index))
        | none => step2
      else step2
    match step3 with
    | some r => r
    | none =>
      { index := c.index, raw := c.raw, valid := none,
        error := some (str "Could not extract DOI, title, or bibliographic info") }

/-- GhostRef `verifyCitations`: the sequential loop over the batch (progress
reporting and the rate-limit pause are UI effects and not modelled). -/
def verifyCitations (L : Lookup) : List RawCitation → List CitResult
  | [] => []
  | c :: rest => processCitation L c :: verifyCitations L rest

/-- GhostRef `verifyDOIs`: the document-wide DOI pass over a list of DOI
strings (`{ index: i + 1, raw: doi, doi: doi, ...result }`). -/
def verifyDOIs (L : Lookup) (dois : List Str) : List CitResult :=
  (enumFrom 1 dois).map fun p => assembleDOI p.2 p.1 p.1 (verifyDOI L p.1)

/-- `new Set(allResults.filter(r => r.valid).map(r => r.doi?.toLowerCase()))`:
the lower-cased DOIs of the valid results (a result without a `doi` key
contributes JS `undefined`, modelled as `none`). -/
def verifiedDOIsOf (rs : List CitResult) : List (Option Str) :=
  (rs.filter fun r => r.valid = some true).map fun r => r.doi.map lowerStr

/-- The filter step of `startVerification`: keep a citation unless its text
has an extractable DOI whose lower-cased form is among the verified DOIs. -/
def unverifiedCitations (rs : List CitResult) (cits : List RawCitation) : List RawCitation :=
  cits.filter fun c =>
    match extractDOI c.raw with
    | none => true
    | some d => decide (¬ some (lowerStr d) ∈ verifiedDOIsOf rs)

/-- Does the first lookup that `processCitation` issues for this citation
throw?  (DOI lookup when a DOI is extractable; else the title search when a
title longer than 15 characters is extractable; else the bibliographic search
when a bundle is extractable.) -/
def firstLookupThrown (L : Lookup) (c : RawCitation) : Bool :=
  match extractDOI c.raw with
  | some d =>
    match L.byDOI d with
    | .thrown _ => true
    | .resp _ _ => false
  | none =>
    match extractTitle c.raw with
    | some t =>
      if 15 < t.length then
        match L.search .title t with
        | .thrown _ => true
        | .resp _ _ => false
      else
        match extractBiblio c.raw with
        | some b =>
          match L.search .biblio (trimWs (buildBiblioQuery b)) with
          | .thrown _ => true
          | .resp _ _ => false
        | none => false
    | none =>
      match extractBiblio c.raw with
      | some b =>
        match L.search .biblio (trimWs (buildBiblioQuery b)) with
        | .thrown _ => true
        | .resp _ _ => false
      | none => false

/-!
## Concrete instances used by the witnesses and counterexamples
-/

/-- A citation carrying the DOI `10.9999/fake` (C1 scenario). -/
def c1x : RawCitation :=
  ⟨str "Phantom, P. Ghost paper on nothing. (2021). doi:10.9999/fake", 3⟩

/-- An oracle whose DOI endpoint answers HTTP 404. -/
def L1x : Lookup := ⟨fun _ => .resp 404 {}, fun _ _ => .resp 200 []⟩

/-- A citation carrying the DOI `10.1234/abcd`. -/
def c1w : RawCitation :=
  ⟨str "Ghost, G. Another spectral reference entry. (2020). doi:10.1234/abcd", 7⟩

/-- A citation with an extractable title and no DOI (C2 scenario). -/
def c2w : RawCitation :=
  ⟨str "Smith, J. et al. A grand unified theory of widgets. Nature 5, 10 (2020).", 1⟩

/-- The title extracted from `c2w`. -/
def t2w : Str := str "A grand unified theory of widgets"

/-- The candidate work returned for the `c2w` title search. -/
def w2w : Work := { title := [str "A grand unified theory of widgets"], DOI := str "10.1/x" }

/-- An oracle whose title search returns `w2w` as single candidate. -/
def L2w : Lookup :=
  ⟨fun _ => .resp 404 {},
   fun k _ => match k with | .title => .resp 200 [w2w] | .biblio => .resp 200 []⟩

/-- The C3 scenario input: exactly the two bracket-numbered citations. -/
def c3input : Str :=
  str "[1] Smith, J. Title One. (2020).\n[2] Doe, A. Title Two. (2021)."

/-- A document with no header pattern but a late numbered-reference line. -/
def c4xText : Str := List.replicate 60 'a' ++ str "\n1. Smith"

/-- A tiny document with no header and no numbered line. -/
def c4wText : Str := str "abcde"

/-- A document where `Bibliography` occurs before `References` (C5 scenario). -/
def c5xText : Str := str "x\nBibliography\nstuff\nReferences\nmore"

/-- A document whose first header pattern matches at offset 1. -/
def c5wText : Str := str "a\nReferences\nb"

/-- A citation with a title and a bibliographic bundle but no DOI
(C6 scenario). -/
def c6x : RawCitation :=
  ⟨str "Johnson, K. et al. Quantum computing advances explained. Nature 501, 123 (2019).", 1⟩

/-- The bibliographic bundle extracted from `c6x`. -/
def b6x : Biblio :=
  { author := some (str "Johnson"), year := some (str "2019"),
    journal := some (str "Nature"), volume := some (str "501"),
    page := some (str "123") }

/-- An oracle whose title search finds nothing and whose bibliographic search
throws (C6 counterexample). -/
def L6x : Lookup :=
  ⟨fun _ => .thrown (str "unused"),
   fun k _ => match k with
     | .title => .resp 200 []
     | .biblio => .thrown (str "network down")⟩

/-- An oracle whose title search throws (C6 witness). -/
def L6w : Lookup :=
  ⟨fun _ => .resp 404 {},
   fun k _ => match k with
     | .title => .thrown (str "ECONNRESET")
     | .biblio => .resp 200 []⟩

/-- A second citation of the C6 witness batch. -/
def c6w2 : RawCitation :=
  ⟨str "Brown, B. et al. Measuring emergent behaviour in systems. Science 7, 89 (2018).", 2⟩

/-- A citation whose text carries the DOI `10.5555/abcdef` (C10 scenario). -/
def c10w : RawCitation :=
  ⟨str "Smith, J. Title words here. (2020). doi:10.5555/abcdef", 1⟩

/-- The CrossRef record of that DOI, with a differently-cased canonical DOI. -/
def w10 : Work := { DOI := str "10.5555/ABCdef" }

/-- An oracle whose DOI endpoint resolves every DOI to `w10`. -/
def L10 : Lookup := ⟨fun _ => .resp 200 w10, fun _ _ => .resp 200 []⟩

/-- The document-wide DOI list of the C10 scenario. -/
def doiList10 : List Str := [str "10.5555/abcdef"]

/-!
## Helper lemmas
-/

/-- A non-null `cleanCitation` result has more than 10 and at most 500
characters. -/
theorem cleanCitation_bounds (t c : Str) (h : cleanCitation t = some c) :
    10 < c.length ∧ c.length ≤ 500 := by
  unfold cleanCitation at h
  by_cases he : t.isEmpty
  · simp [he] at h
  · rw [if_neg he] at h
    simp only [] at h
    split_ifs at h with h1 h2 h3
    · obtain rfl := Option.some.inj h
      refine ⟨h2, ?_⟩
      simp [List.length_take]
    · obtain rfl := Option.some.inj h
      exact ⟨h3, by omega⟩

/-- Every citation assembled by the GhostRef push step went through
`cleanCitation`, hence satisfies its bounds. -/
theorem pushCleanGR_bounds (items : List (Str × Nat)) (c : RawCitation)
    (h : c ∈ pushCleanGR items) : 10 < c.raw.length ∧ c.raw.length ≤ 500 := by
  unfold pushCleanGR at h
  rw [List.mem_filterMap] at h
  obtain ⟨p, _, hp⟩ := h
  cases hcl : cleanCitation p.1 with
  | none => rw [hcl] at hp; simp at hp
  | some cl =>
    rw [hcl] at hp
    simp only [] at hp
    split_ifs at hp
    obtain rfl := Option.some.inj hp
    exact cleanCitation_bounds p.1 cl hcl

/-- Every citation assembled by the v0.0.5 push step went through
`cleanCitation`, hence satisfies its bounds. -/
theorem pushCleanV5_bounds (items : List (Str × Nat)) (c : RawCitation)
    (h : c ∈ pushCleanV5 items) : 10 < c.raw.length ∧ c.raw.length ≤ 500 := by
  unfold pushCleanV5 at h
  rw [List.mem_filterMap] at h
  obtain ⟨p, _, hp⟩ := h
  rw [Option.map_eq_some'] at hp
  obtain ⟨cl, hcl, hc⟩ := hp
  obtain rfl := hc.symm
  exact cleanCitation_bounds p.1 cl hcl

/-- `parseCitations` returns either the empty list or the output of the shared
push step on some candidate list. -/
theorem parseCitations_cases (t : Str) :
    parseCitations t = [] ∨ ∃ items, parseCitations t = pushCleanGR items := by
  unfold parseCitations
  simp only []
  split_ifs
  all_goals first
    | exact Or.inl rfl
    | exact Or.inr ⟨_, rfl⟩

/-- `parseCitationsV5` returns the output of one of the push steps (possibly
empty) or of the paragraph fallback. -/
theorem parseCitationsV5_cases (t : Str) :
    parseCitationsV5 t = [] ∨ (∃ items, parseCitationsV5 t = pushCleanV5 items) ∨
      ∃ items : List (Str × Nat), parseCitationsV5 t =
        List.filterMap (fun p =>
          match cleanCitation p.1 with
          | some c => if c.length > 30 then some (⟨c, p.2⟩ : RawCitation) else none
          | none => none) items := by
  unfold parseCitationsV5
  simp only []
  split_ifs
  all_goals first
    | exact Or.inl rfl
    | exact Or.inr (Or.inl ⟨_, rfl⟩)
    | exact Or.inr (Or.inr ⟨_, rfl⟩)

/-- Every citation of the v0.0.5 paragraph fallback also went through
`cleanCitation`. -/
theorem fallbackV5_bounds (items : List (Str × Nat)) (c : RawCitation)
    (h : c ∈ List.filterMap (fun p =>
      match cleanCitation p.1 with
      | some cl => if cl.length > 30 then some (⟨cl, p.2⟩ : RawCitation) else none
      | none => none) items) : 10 < c.raw.length ∧ c.raw.length ≤ 500 := by
  rw [List.mem_filterMap] at h
  obtain ⟨p, _, hp⟩ := h
  cases hcl : cleanCitation p.1 with
  | none => rw [hcl] at hp; simp at hp
  | some cl =>
    rw [hcl] at hp
    simp only [] at hp
    split_ifs at hp
    obtain rfl := Option.some.inj hp
    exact cleanCitation_bounds p.1 cl hcl

/-- The sequential verification loop processes each citation independently:
it is the elementwise map of the per-citation step. -/
theorem verifyCitations_eq_map (L : Lookup) (cs : List RawCitation) :
    verifyCitations L cs = cs.map (processCitation L) := by
  induction cs with
  | nil => rfl
  | cons c rest ih => simp [verifyCitations, ih]

/-- If every pattern before `p` misses, the pattern loop returns the search
index of `p`. -/
theorem firstHit_append (t : Str) (qs : List Pat) (p : Pat) (k : Nat)
    (hp : searchIdx p t = some k) :
    ∀ ps : List Pat, (∀ q ∈ ps, searchIdx q t = none) →
      firstHit (ps ++ p :: qs) t = some k := by
  intro ps
  induction ps with
  | nil => intro _; simp [firstHit, hp]
  | cons a as ih =>
    intro h
    have ha := h a (by simp)
    simp only [List.cons_append, firstHit, ha]
    exact ih fun q hq => h q (by simp [hq])

/-- Whatever `extractDOI` returns passed the final validation: it starts with
`10.` and is longer than 7 characters. -/
theorem extractDOIGo_valid : ∀ (ps : List Pat) (t d : Str),
    extractDOIGo ps t = some d → d.take 3 = str "10." ∧ 7 < d.length := by
  intro ps
  induction ps with
  | nil => intro t d h; simp [extractDOIGo] at h
  | cons p ps ih =>
    intro t d h
    unfold extractDOIGo at h
    cases hr : runPat p t with
    | none => rw [hr] at h; exact ih t d h
    | some cap =>
      rw [hr] at h
      simp only [] at h
      split_ifs at h with hv
      · obtain rfl := Option.some.inj h
        exact hv
      · exact ih t d h

/-!
## Claims
-/

/-- C9: the similarity scorer is symmetric: for all strings `a` and `b`,
`calculateSimilarity a b = calculateSimilarity b a`. -/
theorem c9_similarity_symm (a b : Str) :
    calculateSimilarity a b = calculateSimilarity b a := by
  unfold calculateSimilarity
  simp only []
  rw [Finset.union_comm, Finset.inter_comm]

/-- C7 (amended): `extractDOI` never returns a token that fails the source's
validation: every returned DOI starts with `10.` and has total length greater
than 7, i.e. at least 5 characters after the `10.` prefix.  (The claimed
8-characters-after-the-prefix threshold does not hold; see the
counterexample.) -/
theorem c7_extractDOI_valid (t d : Str) (h : extractDOI t = some d) :
    d.take 3 = str "10." ∧ 7 < d.length :=
  extractDOIGo_valid doiPatterns t d h

/-- C7 counterexample: on input `10.1234/a` the per-citation DOI extraction
returns the token `10.1234/a`, which has only 6 characters after the `10.`
prefix — fewer than the 8 the claim requires for rejection. -/
theorem c7_counterexample :
    extractDOI (str "10.1234/a") = some (str "10.1234/a") ∧
    (str "10.1234/a").length - 3 < 8 := by
  constructor
  · rfl
  · decide

/-- C7 witness: the amended theorem applied to the input `doi:10.5555/xyzw`. -/
theorem c7_witness :
    (str "10.5555/xyzw").take 3 = str "10." ∧ 7 < (str "10.5555/xyzw").length :=
  c7_extractDOI_valid (str "doi:10.5555/xyzw") (str "10.5555/xyzw") (by rfl)

/-- C5 (amended): the Segmenter's chosen start offset is the earliest match
offset of the FIRST pattern, in declared order, that matches anywhere in the
text; declared order takes priority over offset (it is not a tie-break). -/
theorem c5_first_pattern_wins (t : Str) (k : Nat) (ps qs : List Pat) (p : Pat)
    (hsplit : startPatterns = ps ++ p :: qs)
    (hnone : ∀ q ∈ ps, searchIdx q t = none)
    (hp : searchIdx p t = some k) :
    findRefsStart t = some k := by
  unfold findRefsStart
  rw [hsplit]
  exact firstHit_append t qs p k hp ps hnone

/-- C5 counterexample: in `c5xText` the `Bibliography` pattern matches at
offset 1 and the `References` pattern only at offset 20, yet the chosen start
offset is 20 — not the earliest offset among all header-pattern matches. -/
theorem c5_counterexample :
    findRefsStart c5xText = some 20 ∧ searchIdx patBiblio c5xText = some 1 ∧
    (1 : Nat) < 20 := by
  refine ⟨by rfl, by rfl, by decide⟩

/-- C5 witness: the amended theorem applied to `c5wText`, whose first declared
pattern hits at offset 1. -/
theorem c5_witness : findRefsStart c5wText = some 1 :=
  c5_first_pattern_wins c5wText 1 []
    [patBiblio, patREFS, patWorksCited, patLitCited, patCitedRefs] patRefs rfl
    (fun q hq => absurd hq (List.not_mem_nil q)) (by rfl)

/-- C4 (amended): when no header pattern matches AND the numbered-references
heuristic does not fire, the Segmenter returns the suffix from
`floor(0.6 * length)`: a non-empty suffix (for non-empty input) of length at
least 40% of the input.  (When the numbered heuristic fires the result can be
shorter; see the counterexample.) -/
theorem c4_fallback_suffix (t : Str) (h1 : findRefsStart t = none)
    (h2 : numberedRefsStart t = none) (h3 : t ≠ []) :
    findReferencesSection t = t.drop (6 * t.length / 10) ∧
    (findReferencesSection t).IsSuffix t ∧
    findReferencesSection t ≠ [] ∧
    4 * t.length ≤ 10 * (findReferencesSection t).length := by
  have he : findReferencesSection t = t.drop (6 * t.length / 10) := by
    unfold findReferencesSection
    rw [h1, h2]
  have hlen : 0 < t.length := List.length_pos.mpr h3
  have hmul : 6 * t.length / 10 * 10 ≤ 6 * t.length := Nat.div_mul_le_self _ _
  refine ⟨he, ?_, ?_, ?_⟩
  · rw [he]
    exact ⟨t.take _, List.take_append_drop _ t⟩
  · rw [he]
    apply List.length_pos.mp
    rw [List.length_drop]
    omega
  · rw [he, List.length_drop]
    omega

/-- C4 counterexample: `c4xText` has no reference-section header, yet the
Segmenter returns a section shorter than 40% of the input (the numbered-refs
heuristic fires near the end of the document). -/
theorem c4_counterexample :
    findRefsStart c4xText = none ∧
    10 * (findReferencesSection c4xText).length < 4 * c4xText.length := by
  refine ⟨by rfl, by decide⟩

/-- C4 witness: the amended theorem applied to the 5-character document
`abcde`, whose section is the final 2 characters. -/
theorem c4_witness :
    findReferencesSection c4wText = c4wText.drop (6 * c4wText.length / 10) ∧
    (findReferencesSection c4wText).IsSuffix c4wText ∧
    findReferencesSection c4wText ≠ [] ∧
    4 * c4wText.length ≤ 10 * (findReferencesSection c4wText).length :=
  c4_fallback_suffix c4wText (by rfl) (by rfl) (by decide)

/-- C8: every RawCitation produced by either splitter variant, under any
strategy and for any input, has cleaned text longer than 10 and at most 500
characters. -/
theorem c8_citation_length_bounds (t : Str) (c : RawCitation)
    (h : c ∈ parseCitations t ∨ c ∈ parseCitationsV5 t) :
    10 < c.raw.length ∧ c.raw.length ≤ 500 := by
  rcases h with h | h
  · rcases parseCitations_cases t with he | ⟨items, he⟩
    · rw [he] at h
      simp at h
    · rw [he] at h
      exact pushCleanGR_bounds items c h
  · rcases parseCitationsV5_cases t with he | ⟨items, he⟩ | ⟨items, he⟩
    · rw [he] at h
      simp at h
    · rw [he] at h
      exact pushCleanV5_bounds items c h
    · rw [he] at h
      exact fallbackV5_bounds items c h

/-- C8 witness: the theorem applied to the first citation the v0.0.5 splitter
produces on `c3input`. -/
theorem c8_witness :
    10 < (⟨str "Smith, J. Title One. (2020).", 1⟩ : RawCitation).raw.length ∧
    (⟨str "Smith, J. Title One. (2020).", 1⟩ : RawCitation).raw.length ≤ 500 :=
  c8_citation_length_bounds c3input ⟨str "Smith, J. Title One. (2020).", 1⟩
    (Or.inr (by decide))

/-- C3: on the references text consisting exactly of
`[1] Smith, J. Title One. (2020).` and `[2] Doe, A. Title Two. (2021).`, the
splitter's bracketed-number strategy returns exactly 2 RawCitations with
ordinals 1 and 2. -/
theorem c3_two_bracketed_citations :
    parseCitationsV5 c3input =
      [⟨str "Smith, J. Title One. (2020).", 1⟩,
       ⟨str "Doe, A. Title Two. (2021).", 2⟩] := by
  rfl

/-- C10: a citation whose text carries an extractable DOI equal, up to case,
to the DOI of a result the document-wide DOI pass classified as valid, is
excluded from the per-citation verification pass. -/
theorem c10_verified_doi_excluded (L : Lookup) (dois : List Str)
    (cits : List RawCitation) (c : RawCitation) (d : Str)
    (hd : extractDOI c.raw = some d)
    (hv : some (lowerStr d) ∈ verifiedDOIsOf (verifyDOIs L dois)) :
    c ∉ unverifiedCitations (verifyDOIs L dois) cits := by
  intro hmem
  unfold unverifiedCitations at hmem
  rw [List.mem_filter] at hmem
  have hp := hmem.2
  rw [hd] at hp
  simp only [decide_eq_true_eq] at hp
  exact hp hv

/-- C10 witness: the theorem applied to `c10w`, whose DOI was verified (with a
differently-cased canonical form) by the document-wide pass over
`doiList10`. -/
theorem c10_witness :
    c10w ∉ unverifiedCitations (verifyDOIs L10 doiList10) [c10w] :=
  c10_verified_doi_excluded L10 doiList10 [c10w] c10w (str "10.5555/abcdef")
    (by rfl) (by decide)

/-- C1 (amended): when the DOI lookup answers HTTP 404, the citation's result
has status NotFound (`valid = false`) with reason `DOI not found in CrossRef`
and keeps the extracted DOI — but its `method` field is left unset (`null`),
not `"doi"` (the source only sets `method: 'doi'` on success; see the
counterexample). -/
theorem c1_doi_404_not_found (L : Lookup) (c : RawCitation) (d : Str) (w : Work)
    (hd : extractDOI c.raw = some d) (hr : L.byDOI d = .resp 404 w) :
    (processCitation L c).valid = some false ∧
    (processCitation L c).error = some (str "DOI not found in CrossRef") ∧
    (processCitation L c).method = none ∧
    (processCitation L c).doi = some d := by
  unfold processCitation
  rw [hd]
  simp only []
  unfold verifyDOI
  rw [hr]
  simp [assembleDOI]

/-- C1 counterexample: a 404 DOI lookup for `10.9999/fake` yields status
NotFound, but the result's `method` is `null`, not `"doi"` as the claim
states. -/
theorem c1_counterexample :
    extractDOI c1x.raw = some (str "10.9999/fake") ∧
    L1x.byDOI (str "10.9999/fake") = .resp 404 {} ∧
    (processCitation L1x c1x).valid = some false ∧
    (processCitation L1x c1x).error = some (str "DOI not found in CrossRef") ∧
    (processCitation L1x c1x).method ≠ some (str "doi") := by
  refine ⟨by rfl, by rfl, by rfl, by rfl, by decide⟩

/-- C1 witness: the amended theorem applied to `c1w` against the
404-answering oracle. -/
theorem c1_witness :
    (processCitation L1x c1w).valid = some false ∧
    (processCitation L1x c1w).error = some (str "DOI not found in CrossRef") ∧
    (processCitation L1x c1w).method = none ∧
    (processCitation L1x c1w).doi = some (str "10.1234/abcd") :=
  c1_doi_404_not_found L1x c1w (str "10.1234/abcd") {} (by rfl) (by rfl)

/-- C2: when a title search (for an extracted title longer than 15 characters)
returns a non-empty candidate list, the orchestrator records the similarity
between the queried title and the first candidate's title and classifies the
citation as valid (`method 'title'`) — for every value of the similarity
score, with no minimum-similarity gate. -/
theorem c2_title_search_verified (L : Lookup) (c : RawCitation) (t : Str)
    (st : Nat) (w : Work) (ws : List Work)
    (h1 : extractDOI c.raw = none) (h2 : extractTitle c.raw = some t)
    (h3 : 15 < t.length) (h4 : L.search .title t = .resp st (w :: ws))
    (h5 : isOk st = true) :
    (processCitation L c).valid = some true ∧
    (processCitation L c).method = some (str "title") ∧
    (processCitation L c).similarity =
      some (jsRound (100 * calculateSimilarity (lowerStr t)
        (lowerStr (jsOr w.title.head? [])))) := by
  have hs : searchCrossRef L t c.raw c.index =
      { index := c.index, raw := c.raw, searchedTitle := some t,
        valid := some true,
        title := some (jsOr w.title.head? []),
        authors := some (authorStr w.author),
        year := some (yearOf w),
        doi := some w.DOI,
        journal := some (journalOf w),
        similarity := some (jsRound (100 * calculateSimilarity (lowerStr t)
          (lowerStr (jsOr w.title.head? [])))) } := by
    unfold searchCrossRef
    rw [h4]
    simp only []
    rw [if_neg (by simp [h5])]
  unfold processCitation
  rw [h1]
  simp only []
  rw [h2]
  simp only []
  rw [if_pos h3, hs]
  simp [needsBiblio]

/-- C2 witness: the theorem applied to `c2w` against the oracle whose title
search returns `w2w`. -/
theorem c2_witness :
    (processCitation L2w c2w).valid = some true ∧
    (processCitation L2w c2w).method = some (str "title") ∧
    (processCitation L2w c2w).similarity =
      some (jsRound (100 * calculateSimilarity (lowerStr t2w)
        (lowerStr (jsOr w2w.title.head? [])))) :=
  c2_title_search_verified L2w c2w t2w 200 w2w [] (by rfl) (by rfl) (by decide)
    (by rfl) (by rfl)

/-- C6 (amended): when the FIRST lookup issued for a citation throws a network
exception, that citation's result is Indeterminate (`valid = null`) with a
populated `errorDetail`; and the batch loop is an elementwise map, so every
other citation in the batch is still processed and classified normally.
(A bibliographic-lookup exception that follows a title-search NotFound keeps
the NotFound result instead; see the counterexample.) -/
theorem c6_exception_indeterminate (L : Lookup) (cs : List RawCitation)
    (c : RawCitation) (h : firstLookupThrown L c = true) :
    (processCitation L c).valid = none ∧
    (processCitation L c).error ≠ none ∧
    verifyCitations L cs = cs.map (processCitation L) := by
  refine ⟨?_, ?_, verifyCitations_eq_map L cs⟩ <;>
  · unfold firstLookupThrown at h
    unfold processCitation
    cases hd : extractDOI c.raw with
    | some d =>
      rw [hd] at h
      simp only [] at h
      simp only []
      cases hb : L.byDOI d with
      | thrown msg =>
        unfold verifyDOI
        rw [hb]
        simp [assembleDOI]
      | resp st w =>
        rw [hb] at h
        simp at h
    | none =>
      rw [hd] at h
      simp only [] at h
      simp only []
      cases ht : extractTitle c.raw with
      | some ttl =>
        rw [ht] at h
        simp only [] at h
        simp only []
        by_cases hlen : 15 < ttl.length
        · rw [if_pos hlen] at h ⊢
          cases hs : L.search .title ttl with
          | thrown msg =>
            unfold searchCrossRef
            rw [hs]
            simp [needsBiblio]
          | resp st items =>
            rw [hs] at h
            simp at h
        · rw [if_neg hlen] at h ⊢
          cases hbib : extractBiblio c.raw with
          | some b =>
            rw [hbib] at h
            simp only [] at h
            simp only [needsBiblio]
            cases hsb : L.search .biblio (trimWs (buildBiblioQuery b)) with
            | thrown msg =>
              unfold searchCrossRefBiblio
              simp only []
              rw [hsb]
              simp [pickBiblio]
            | resp st items =>
              rw [hsb] at h
              simp at h
          | none =>
            rw [hbib] at h
            simp at h
      | none =>
        rw [ht] at h
        simp only [] at h
        simp only []
        cases hbib : extractBiblio c.raw with
        | some b =>
          rw [hbib] at h
          simp only [] at h
          simp only [needsBiblio]
          cases hsb : L.search .biblio (trimWs (buildBiblioQuery b)) with
          | thrown msg =>
            unfold searchCrossRefBiblio
            simp only []
            rw [hsb]
            simp [pickBiblio]
          | resp st items =>
            rw [hsb] at h
            simp at h
        | none =>
          rw [hbib] at h
          simp at h

/-- C6 counterexample: for `c6x` against `L6x` the bibliographic lookup
throws, yet the citation's final status is NotFound (`valid = false`, kept
from the title search), not Indeterminate as the claim states. -/
theorem c6_counterexample :
    extractDOI c6x.raw = none ∧
    extractBiblio c6x.raw = some b6x ∧
    L6x.search .biblio (trimWs (buildBiblioQuery b6x)) = .thrown (str "network down") ∧
    (processCitation L6x c6x).valid = some false := by
  refine ⟨by rfl, by rfl, by rfl, by rfl⟩

/-- C6 witness: the amended theorem applied to a two-citation batch whose
first citation's title search throws. -/
theorem c6_witness :
    (processCitation L6w c6x).valid = none ∧
    (processCitation L6w c6x).error ≠ none ∧
    verifyCitations L6w [c6x, c6w2] = [c6x, c6w2].map (processCitation L6w) :=
  c6_exception_indeterminate L6w [c6x, c6w2] c6x (by rfl)
